import Mathlib

/-!
Shallow embedding of ifupdown2 lib/iproute2.py (class IPRoute2).

The module mediates mutations of Linux link state by emitting iproute2 or
bridge command invocations, either directly (pass-through mode) or appended
to a process-wide batch buffer that is later flushed as one invocation.
External collaborators (command executor, netlink state cache, sysfs reader,
logger, the ipaddr library, the utils module) are modelled as parameters:
the cache and sysfs as function records, the executor result as an Except
value, and each externally visible action as an element of an explicit
effect trace.
-/

namespace IfUpdown2

/-- Externally observable side effects of an IPRoute2 operation: direct
command execution, a batched flush execution with standard input, log
messages at their levels, sysfs reads and the address-cache flush hook. -/
inductive Effect where
  | execCmd (cmd : String) : Effect
  | execBatch (cmd : String) (stdinData : String) : Effect
  | logInfo (msg : String) : Effect
  | logWarn (msg : String) : Effect
  | logError (msg : String) : Effect
  | sysfsGetDisableIPv6 (ifname : String) : Effect
  | sysfsGetMtu (ifname : String) : Effect
  | cacheAddressFlush (ifname : String) : Effect
  deriving DecidableEq, Repr

/-- The mutable batching state of the IPRoute2 object: self.__batch_mode and
self.__batch.  The buffer is none outside a transaction (Python None) and
some fragment list inside one. -/
structure St where
  batch_mode : Bool
  batch : Option (List String)
  deriving DecidableEq, Repr

/-- Python truthiness of self.__batch: None and the empty list are falsy. -/
def batchFalsy : Option (List String) → Bool
  | none => true
  | some l => l.isEmpty

/-- Read interface of the netlink state cache (external collaborator).
get_link_ipv6_addrgen_mode yields none when the mode is unknown; values
follow the source docstring, 0 = eui64 (false), 1 = none (true). -/
structure Cache where
  link_exists : String → Bool
  link_is_up : String → Bool
  get_link_address_raw : String → Nat
  get_link_mtu : String → Nat
  get_link_ipv6_addrgen_mode : String → Option Bool
  get_vrf_table : String → Option Nat

/-- Read interface of the sysfs reader (external collaborator). -/
structure Sysfs where
  get_ipv6_conf_disable_ipv6 : String → Bool
  link_get_mtu : String → Nat

/-- Result of parsing an address string with ipaddr.IPNetwork (external
library): IP version, network address string, and the prefix length. -/
structure IPNet where
  version : Nat
  network : String
  prefixlen : Nat

/-- The collaborators an IPRoute2 instance consults: the cache, the sysfs
reader, utils.mac_str_to_int, ipaddr.IPNetwork, and the resolved command
paths utils.ip_cmd, utils.bridge_cmd, utils.brctl_cmd. -/
structure Ctx where
  cache : Cache
  sysfs : Sysfs
  mac_str_to_int : String → Nat
  ipnetwork : String → IPNet
  ip_cmd : String
  bridge_cmd : String
  brctl_cmd : String

/-! ## Batch controller -/

/-- IPRoute2.__execute_or_batch: in batch mode append the fragment to
self.__batch (the buffer is a list whenever batch mode is on, per
batch_start), otherwise execute the prefixed command immediately. -/
def execute_or_batch (pfx cmd : String) (st : St) : St × List Effect :=
  if st.batch_mode then
    ({ st with batch := st.batch.map (fun b => b ++ [cmd]) }, [])
  else
    (st, [Effect.execCmd (pfx ++ " " ++ cmd)])

/-- Sequencing of several __execute_or_batch calls, collecting effects. -/
def execute_or_batch_list (pfx : String) (cmds : List String) (st : St) :
    St × List Effect :=
  match cmds with
  | [] => (st, [])
  | c :: rest =>
      let p := execute_or_batch pfx c st
      let q := execute_or_batch_list pfx rest p.1
      (q.1, p.2 ++ q.2)

/-- IPRoute2.batch_start: open a transaction with an empty buffer. -/
def batch_start (st : St) : St :=
  { st with batch_mode := true, batch := some [] }

/-- IPRoute2.batch_commit.  If batch mode is off or the buffer is falsy
(None or empty) it returns at once, touching nothing.  Otherwise it runs
the executor once on ip_cmd -force -batch - with the fragments joined by
newlines as standard input; the finally block closes the transaction
(mode off, buffer None) whether or not the executor raised, and the
executor outcome (exec) is returned to the caller afterwards. -/
def batch_commit (c : Ctx) (exec : String → String → Except String Unit)
    (st : St) : Except String Unit × St × List Effect :=
  if ¬ st.batch_mode ∨ batchFalsy st.batch then
    (Except.ok (), st, [])
  else
    let cmd := c.ip_cmd ++ " -force -batch -"
    let stdinData := String.intercalate "\n" (st.batch.getD [])
    (exec cmd stdinData, ⟨false, none⟩, [Effect.execBatch cmd stdinData])

/-- IPRoute2.bridge_batch_commit: identical to batch_commit except the
flushed tool is bridge_cmd.  It shares the same buffer state. -/
def bridge_batch_commit (c : Ctx) (exec : String → String → Except String Unit)
    (st : St) : Except String Unit × St × List Effect :=
  if ¬ st.batch_mode ∨ batchFalsy st.batch then
    (Except.ok (), st, [])
  else
    let cmd := c.bridge_cmd ++ " -force -batch -"
    let stdinData := String.intercalate "\n" (st.batch.getD [])
    (exec cmd stdinData, ⟨false, none⟩, [Effect.execBatch cmd stdinData])

/-! ## Link operations -/

/-- IPRoute2.link_up_force: unconditionally emit the up transition. -/
def link_up_force (c : Ctx) (ifname : String) (st : St) : St × List Effect :=
  execute_or_batch c.ip_cmd ("link set dev " ++ ifname ++ " up") st

/-- IPRoute2.link_down_force: unconditionally emit the down transition. -/
def link_down_force (c : Ctx) (ifname : String) (st : St) : St × List Effect :=
  execute_or_batch c.ip_cmd ("link set dev " ++ ifname ++ " down") st

/-- IPRoute2.link_up: emit the up transition only if the cache does not
already report the link up. -/
def link_up (c : Ctx) (ifname : String) (st : St) : St × List Effect :=
  if ¬ c.cache.link_is_up ifname then link_up_force c ifname st else (st, [])

/-- IPRoute2.link_down: emit the down transition only if the cache reports
the link up. -/
def link_down (c : Ctx) (ifname : String) (st : St) : St × List Effect :=
  if c.cache.link_is_up ifname then link_down_force c ifname st else (st, [])

/-- IPRoute2.link_set_address: when the integer value of the requested MAC
differs from the cached raw address, run the cache-gated link_down, emit
the address-set fragment, then run the cache-gated link_up; otherwise do
nothing. -/
def link_set_address (c : Ctx) (ifname address : String) (st : St) :
    St × List Effect :=
  if c.mac_str_to_int address ≠ c.cache.get_link_address_raw ifname then
    let p1 := link_down c ifname st
    let p2 := execute_or_batch c.ip_cmd
      ("link set dev " ++ ifname ++ " address " ++ address) p1.1
    let p3 := link_up c ifname p2.1
    (p3.1, p1.2 ++ p2.2 ++ p3.2)
  else
    (st, [])

/-! ## VXLAN operations -/

/-- The class constant IPRoute2.VXLAN_UDP_PORT. -/
def VXLAN_UDP_PORT : Nat := 4789

/-- The svcnodeip argument of link_create_vxlan: an ipaddr address object,
of which only the textual form and the is_multicast attribute are used. -/
structure SvcIP where
  addr : String
  is_multicast : Bool

/-- Python truthiness of the remoteips argument: None and the empty list
are falsy, a non-empty list is truthy. -/
def remoteipsTruthy : Option (List String) → Bool
  | none => false
  | some l => ¬ l.isEmpty

/-- Python truthiness of an optional string argument (ageing, physdev,
localtunnelip): None and the empty string are falsy. -/
def strTruthy : Option String → Bool
  | none => false
  | some s => s ≠ ""

/-- IPRoute2.link_create_vxlan.  Raises when svcnodeip and remoteips are
both truthy, before anything is emitted (the error constructor carries no
state change and no effects).  Otherwise builds one fragment: a set
fragment without the VNI when the cache says the link exists, an add
fragment with the VNI when it does not, followed by the optional clauses
group-or-remote, ageing, nolearning, ttl, dev, local in source order,
space-joined, and hands it to __execute_or_batch. -/
def link_create_vxlan (c : Ctx) (name : String) (vxlanid : Nat)
    (localtunnelip : Option String) (svcnodeip : Option SvcIP)
    (remoteips : Option (List String)) (learning : String)
    (ageing : Option String) (ttl : Option String) (physdev : Option String)
    (st : St) : Except String (St × List Effect) :=
  if svcnodeip.isSome ∧ remoteipsTruthy remoteips then
    Except.error "svcnodeip and remoteip are mutually exclusive"
  else
    let base :=
      if c.cache.link_exists name then
        "link set dev " ++ name ++ " type vxlan dstport " ++ toString VXLAN_UDP_PORT
      else
        "link add dev " ++ name ++ " type vxlan id " ++ toString vxlanid
          ++ " dstport " ++ toString VXLAN_UDP_PORT
    let cmd := [base]
      ++ (match svcnodeip with
          | some s => [if s.is_multicast then "group " ++ s.addr else "remote " ++ s.addr]
          | none => [])
      ++ (if strTruthy ageing then ["ageing " ++ ageing.getD ""] else [])
      ++ (if learning = "off" then ["nolearning"] else [])
      ++ (match ttl with | some t => ["ttl " ++ t] | none => [])
      ++ (if strTruthy physdev then ["dev " ++ physdev.getD ""] else [])
      ++ (if strTruthy localtunnelip then ["local " ++ localtunnelip.getD ""] else [])
    Except.ok (execute_or_batch c.ip_cmd (String.intercalate " " cmd) st)

/-! ## VXLAN peer discovery: the regex and the FDB pipeline

IPRoute2.get_vxlan_peers pipes bridge fdb show brport dev through
grep 00:00:00:00:00:00 and runs VXLAN_PEER_REGEX_PATTERN, the Python
pattern backslash-s+ dst backslash-s+ ( d+ . d+ . d+ . d+ ) backslash-s+
with unescaped dots, over each output line.  The matcher below implements
Python re.search semantics for exactly this pattern: leftmost match start,
greedy one-or-more quantifiers with backtracking, the dot matching any
character. -/

/-- Python regex class backslash-s for byte strings. -/
def pyIsSpace (ch : Char) : Bool :=
  ch = ' ' ∨ ch = '\t' ∨ ch = '\n' ∨ ch = '\x0d' ∨ ch = '\x0b' ∨ ch = '\x0c'

/-- Remainders after consuming one-or-more characters satisfying p,
greedy (longest consumption) first. -/
def plusRems (p : Char → Bool) : List Char → List (List Char)
  | [] => []
  | ch :: cs => if p ch then plusRems p cs ++ [cs] else []

/-- All (consumed, remainder) splits for one-or-more digits, greedy
first. -/
def digitsPlus : List Char → List (List Char × List Char)
  | [] => []
  | ch :: cs =>
      if ch.isDigit then
        ((digitsPlus cs).map (fun pr => (ch :: pr.1, pr.2))) ++ [([ch], cs)]
      else []

/-- All (group, remainder) splits of the capture group d+ . d+ . d+ . d+
in Python preference order. -/
def groupMatches (l : List Char) : List (List Char × List Char) :=
  (digitsPlus l).flatMap (fun d1 =>
    match d1.2 with
    | [] => []
    | c1 :: r1 =>
      (digitsPlus r1).flatMap (fun d2 =>
        match d2.2 with
        | [] => []
        | c2 :: r2 =>
          (digitsPlus r2).flatMap (fun d3 =>
            match d3.2 with
            | [] => []
            | c3 :: r3 =>
              (digitsPlus r3).map (fun d4 =>
                (d1.1 ++ c1 :: d2.1 ++ c2 :: d3.1 ++ c3 :: d4.1, d4.2)))))

/-- Try the whole pattern anchored at this suffix; return the captured
group of the preferred match, if any. -/
def matchPatternAt (l : List Char) : Option (List Char) :=
  (plusRems pyIsSpace l).findSome? (fun r1 =>
    match r1 with
    | 'd' :: 's' :: 't' :: r2 =>
      (plusRems pyIsSpace r2).findSome? (fun r3 =>
        (groupMatches r3).findSome? (fun g =>
          match g.2 with
          | ch :: _ => if pyIsSpace ch then some g.1 else none
          | [] => none))
    | _ => none)

/-- re.search: earliest match start wins. -/
def searchFrom : List Char → Option (List Char)
  | [] => none
  | ch :: tl =>
      match matchPatternAt (ch :: tl) with
      | some g => some g
      | none => searchFrom tl

/-- VXLAN_PEER_REGEX_PATTERN.search(line) followed by group(1). -/
def vxlanPeerSearch (line : String) : Option String :=
  (searchFrom line.data).map (fun g => String.mk g)

/-- Substring containment, modelling grep line filtering. -/
def containsSub (line pat : String) : Bool :=
  decide (pat.data <:+: line.data)

/-- The all-zero MAC placeholder grep pattern. -/
def zeroMac : String := "00:00:00:00:00:00"

/-- IPRoute2.get_vxlan_peers, success path.  The fdb_lines parameter is
the line-split output of the external bridge fdb show brport dev query.
grep keeps the lines containing the all-zero MAC; when none match it
exits 1, check_output raises CalledProcessError with returncode 1, and
the handler returns the empty accumulator without logging.  Otherwise the
parse loop runs over the grep output split on newlines (the matched lines
plus a final empty piece from the trailing newline), appending every
captured remote IP different from svcnodeip, in line order. -/
def get_vxlan_peers (fdb_lines : List String) (svcnodeip : String) :
    List String × List Effect :=
  let matched := fdb_lines.filter (fun l => containsSub l zeroMac)
  if matched.isEmpty then
    ([], [])
  else
    (((matched ++ [""]).filterMap vxlanPeerSearch).filter (fun ip => ip ≠ svcnodeip), [])

/-- IPRoute2.get_vxlan_peers, exception path: the except clause for a
CalledProcessError from the grep pipeline.  cur_peers is still empty when
check_output raises, so the function returns the empty list; the error is
logged only when the returncode is not 1. -/
def get_vxlan_peers_on_called_process_error (returncode : Int) :
    List String × List Effect :=
  if returncode ≠ 1 then
    ([], [Effect.logError ("CalledProcessError returncode " ++ toString returncode)])
  else
    ([], [])

/-! ## IPv6 address-generation mode -/

/-- Link.ifla_inet6_addr_gen_mode_dict.get(addrgen): per the source
docstring, 0 = eui64 and 1 = none, so a truthy addrgen maps to none. -/
def addrgenModeStr (addrgen : Bool) : String :=
  if addrgen then "none" else "eui64"

/-- The info message logged when ipv6 is disabled on the device. -/
def addrgenDisabledMsg (ifname : String) : String :=
  ifname ++ ": cannot set addrgen: ipv6 is disabled on this device"

/-- The info message logged when the MTU is below 1280. -/
def addrgenMtuMsg (ifname : String) (mtu : Nat) (addrgen : Bool) : String :=
  ifname ++ ": ipv6 addrgen is disabled on device with MTU lower than 1280 (current mtu "
    ++ toString mtu ++ "): cannot set addrgen " ++ (if addrgen then "off" else "on")

/-- IPRoute2.link_set_ipv6_addrgen.  Returns the success flag together
with the batching state and the effect trace.  Decision sequence of the
source: return true at once when the cached mode equals the requested
mode; read the sysfs ipv6-disabled flag and return false when set; read
the MTU from sysfs when the link was just created, else from the cache,
and return false when it is below 1280; flush the address cache for the
device when it was not just created; force the link down when the cache
reports it up, emit the addrgenmode fragment, and force it back up when
it had been up; return true. -/
def link_set_ipv6_addrgen (c : Ctx) (ifname : String)
    (addrgen link_created : Bool) (st : St) : Bool × St × List Effect :=
  if c.cache.get_link_ipv6_addrgen_mode ifname = some addrgen then
    (true, st, [])
  else
    let e0 := [Effect.sysfsGetDisableIPv6 ifname]
    if c.sysfs.get_ipv6_conf_disable_ipv6 ifname then
      (false, st, e0 ++ [Effect.logInfo (addrgenDisabledMsg ifname)])
    else
      let link_mtu :=
        if link_created then c.sysfs.link_get_mtu ifname
        else c.cache.get_link_mtu ifname
      let e1 := e0 ++ (if link_created then [Effect.sysfsGetMtu ifname] else [])
      if link_mtu < 1280 then
        (false, st, e1 ++ [Effect.logInfo (addrgenMtuMsg ifname link_mtu addrgen)])
      else
        let e2 := e1 ++ (if ¬ link_created then [Effect.cacheAddressFlush ifname] else [])
        let is_link_up := c.cache.link_is_up ifname
        let p1 := if is_link_up then link_down_force c ifname st else (st, [])
        let p2 := execute_or_batch c.ip_cmd
          ("link set dev " ++ ifname ++ " addrgenmode " ++ addrgenModeStr addrgen) p1.1
        let p3 := if is_link_up then link_up_force c ifname p2.1 else (p2.1, [])
        (true, p3.1, e2 ++ p1.2 ++ p2.2 ++ p3.2)

/-! ## Bridge multicast-querier source (legacy brctl tooling)

These two methods run utils.exec_command directly, never the batch, so
their model returns only an effect trace.  They are the real-method
bodies; when Requirements.bridge_utils_is_installed is false the
constructor replaces both with no-op lambdas. -/

/-- Python int(s) on a base-10 string: surrounding whitespace stripped,
one optional sign, then a non-empty digit run. -/
def pyStrip (l : List Char) : List Char :=
  ((l.dropWhile pyIsSpace).reverse.dropWhile pyIsSpace).reverse

/-- Numeric value of a digit run. -/
def digitsVal (l : List Char) : Nat :=
  l.foldl (fun a ch => a * 10 + (ch.toNat - '0'.toNat)) 0

/-- Python int(s): some value on success, none when int raises. -/
def pyInt (s : String) : Option Int :=
  match pyStrip s.data with
  | '-' :: rest =>
      if rest ≠ [] ∧ rest.all Char.isDigit then some (-(digitsVal rest : Int)) else none
  | '+' :: rest =>
      if rest ≠ [] ∧ rest.all Char.isDigit then some (digitsVal rest : Int) else none
  | rest =>
      if rest ≠ [] ∧ rest.all Char.isDigit then some (digitsVal rest : Int) else none

/-- Python str.isdigit: non-empty and all digits. -/
def pyIsDigitStr (s : String) : Bool :=
  s ≠ "" ∧ s.data.all Char.isDigit

/-- Python split on the single-character separator dot, over the
character list: every occurrence separates, nothing is collapsed, and
the empty string yields one empty piece. -/
def splitDots : List Char → List (List Char)
  | [] => [[]]
  | ch :: rest =>
      let r := splitDots rest
      if ch = '.' then [] :: r
      else (ch :: r.headD []) :: r.tail

/-- Python str.isdigit on a character list piece. -/
def pyIsDigitChars (l : List Char) : Bool :=
  l ≠ [] ∧ l.all Char.isDigit

/-- IPRoute2.bridge_del_mcqv4src (real method): parse the vlan with int,
log info and skip on failure, otherwise run one brctl delmcqv4src
command; no range check on delete. -/
def bridge_del_mcqv4src (c : Ctx) (bridge vlan : String) : List Effect :=
  match pyInt vlan with
  | none =>
      [Effect.logInfo (bridge ++ ": del mcqv4src vlan: invalid parameter " ++ vlan)]
  | some v =>
      [Effect.execCmd (c.brctl_cmd ++ " delmcqv4src " ++ bridge ++ " " ++ toString v)]

/-- IPRoute2.bridge_set_mcqv4src (real method): parse the vlan with int
(info log and skip on failure); warn and skip when the parsed vlan is 0
or above 4095 (the source does not reject negatives); split the querier
address on dots, warn and skip unless there are exactly four pieces, each
a non-empty digit run of value at most 255 (the int(k) below 0 branch of
the source is unreachable after isdigit); otherwise run one brctl
setmcqv4src command. -/
def bridge_set_mcqv4src (c : Ctx) (bridge vlan mcquerier : String) : List Effect :=
  match pyInt vlan with
  | none =>
      [Effect.logInfo (bridge ++ ": set mcqv4src vlan: invalid parameter " ++ vlan)]
  | some v =>
      if v = 0 ∨ v > 4095 then
        [Effect.logWarn ("mcqv4src vlan " ++ toString v ++ " invalid range")]
      else
        let ip := splitDots mcquerier.data
        if ip.length ≠ 4 then
          [Effect.logWarn ("mcqv4src " ++ mcquerier ++ " invalid IPv4 address")]
        else if ¬ ip.all (fun k => pyIsDigitChars k ∧ digitsVal k ≤ 255) then
          [Effect.logWarn ("mcqv4src " ++ mcquerier ++ " invalid IPv4 address")]
        else
          [Effect.execCmd (c.brctl_cmd ++ " setmcqv4src " ++ bridge ++ " "
            ++ toString v ++ " " ++ mcquerier)]

/-! ## IPv6 route metric fix -/

/-- The ifaceobj argument of fix_ipv6_route_metric, reduced to the two
attributes the method reads: whether link_privflags has the VRF_SLAVE bit
(an external enum, modelled as the test result), and the upperifaces
attribute, none standing for Python None (iterating it raises, and the
surrounding except swallows the error leaving no table). -/
structure IfaceObj where
  vrf_slave : Bool
  upperifaces : Option (List String)

/-- Python truthiness of the resolved vrf table value. -/
def vrfTruthy : Option Nat → Bool
  | none => false
  | some t => t ≠ 0

/-- The vrf resolution loop: query each upper interface in turn, stopping
at the first truthy table; when the loop runs out, the variable keeps the
last queried value (possibly falsy). -/
def findVrf (c : Ctx) : List String → Option Nat
  | [] => none
  | [u] => c.cache.get_vrf_table u
  | u :: rest =>
      let t := c.cache.get_vrf_table u
      if vrfTruthy t then t else findVrf c rest

/-- The route del fragment of fix_ipv6_route_metric for one prefix. -/
def routeDelFrag (routePfx : String) (vt : Option Nat) (dev : String) : String :=
  if vrfTruthy vt then
    "route del " ++ routePfx ++ " table " ++ toString (vt.getD 0) ++ " dev " ++ dev
  else
    "route del " ++ routePfx ++ " dev " ++ dev

/-- The route add fragment of fix_ipv6_route_metric for one prefix. -/
def routeAddFrag (routePfx : String) (vt : Option Nat) (dev : String) : String :=
  if vrfTruthy vt then
    "route add " ++ routePfx ++ " table " ++ toString (vt.getD 0) ++ " dev " ++ dev
      ++ " proto kernel metric 9999"
  else
    "route add " ++ routePfx ++ " dev " ++ dev ++ " proto kernel metric 9999"

/-- The network/prefixlen strings of the IPv6 members of the address
list, in order; IPv4 members contribute nothing. -/
def ipv6Prefixes (c : Ctx) (ips : List String) : List String :=
  ips.filterMap (fun ip =>
    let obj := c.ipnetwork ip
    if obj.version = 6 then some (obj.network ++ "/" ++ toString obj.prefixlen)
    else none)

/-- First loop of fix_ipv6_route_metric: for every member of ips whose
IPNetwork has version 6, emit a route del fragment through
__execute_or_batch and record the (prefix, table) pair in ip_route_del;
other members are skipped. -/
def fix_ipv6_loop1 (c : Ctx) (vrf_table : Option Nat) (dev : String) :
    List String → St → St × List Effect × List (String × Option Nat)
  | [], st => (st, [], [])
  | ip :: rest, st =>
      let obj := c.ipnetwork ip
      if obj.version = 6 then
        let routePfx := obj.network ++ "/" ++ toString obj.prefixlen
        let p := execute_or_batch c.ip_cmd (routeDelFrag routePfx vrf_table dev) st
        let q := fix_ipv6_loop1 c vrf_table dev rest p.1
        (q.1, p.2 ++ q.2.1, (routePfx, vrf_table) :: q.2.2)
      else
        fix_ipv6_loop1 c vrf_table dev rest st

/-- Second loop of fix_ipv6_route_metric: re-add every recorded pair at
metric 9999 through __execute_or_batch. -/
def fix_ipv6_loop2 (c : Ctx) (dev : String) :
    List (String × Option Nat) → St → St × List Effect
  | [], st => (st, [])
  | pr :: rest, st =>
      let p := execute_or_batch c.ip_cmd (routeAddFrag pr.1 pr.2 dev) st
      let q := fix_ipv6_loop2 c dev rest p.1
      (q.1, p.2 ++ q.2)

/-- IPRoute2.fix_ipv6_route_metric.  Resolves the vrf table when the
interface is a VRF slave (the try block over upperifaces; a None
upperifaces raises inside the try and is swallowed), then runs the delete
loop over ips followed by the re-add loop over the collected pairs. -/
def fix_ipv6_route_metric (c : Ctx) (ifaceobj : IfaceObj)
    (macvlan_ifacename : String) (ips : List String) (st : St) :
    St × List Effect :=
  let vrf_table : Option Nat :=
    if ifaceobj.vrf_slave then
      match ifaceobj.upperifaces with
      | none => none
      | some uppers => findVrf c uppers
    else none
  let p := fix_ipv6_loop1 c vrf_table macvlan_ifacename ips st
  let q := fix_ipv6_loop2 c macvlan_ifacename p.2.2 p.1
  (q.1, p.2.1 ++ q.2)

/-! ## Observation helpers and concrete collaborator instances -/

/-- Whether an effect is a command invocation (direct or batched flush);
log messages, sysfs reads and cache flushes are not. -/
def isCmdEffect : Effect → Bool
  | Effect.execCmd _ => true
  | Effect.execBatch _ _ => true
  | _ => false

/-- A concrete cache: no link exists, nothing is up, raw address 0,
MTU 1500, addrgen mode unknown, no vrf tables. -/
def cache0 : Cache where
  link_exists := fun _ => false
  link_is_up := fun _ => false
  get_link_address_raw := fun _ => 0
  get_link_mtu := fun _ => 1500
  get_link_ipv6_addrgen_mode := fun _ => none
  get_vrf_table := fun _ => none

/-- A concrete sysfs reader: ipv6 enabled, MTU 1500. -/
def sysfs0 : Sysfs where
  get_ipv6_conf_disable_ipv6 := fun _ => false
  link_get_mtu := fun _ => 1500

/-- A concrete ipaddr.IPNetwork table covering the addresses used in the
specification example. -/
def ipnet0 : String → IPNet := fun s =>
  if s = "2001:db8::1/64" then ⟨6, "2001:db8::", 64⟩
  else if s = "10.0.0.1/24" then ⟨4, "10.0.0.0", 24⟩
  else ⟨4, "0.0.0.0", 0⟩

/-- A concrete collaborator bundle with plain tool names. -/
def ctx0 : Ctx where
  cache := cache0
  sysfs := sysfs0
  mac_str_to_int := fun _ => 0
  ipnetwork := ipnet0
  ip_cmd := "ip"
  bridge_cmd := "bridge"
  brctl_cmd := "brctl"

/-- Collaborators for the address-change scenario: the link is cached up
and the cached raw address 1 differs from the requested MAC value 2. -/
def ctxC2 : Ctx :=
  { ctx0 with
      cache := { cache0 with
                   link_is_up := fun _ => true,
                   get_link_address_raw := fun _ => 1 },
      mac_str_to_int := fun _ => 2 }

/-- Collaborators where the cached addrgen mode is already the requested
one (some true) while every MTU is far below 1280. -/
def ctxC4a : Ctx :=
  { ctx0 with
      cache := { cache0 with
                   get_link_ipv6_addrgen_mode := fun _ => some true,
                   get_link_mtu := fun _ => 0 },
      sysfs := { sysfs0 with link_get_mtu := fun _ => 0 } }

/-- Collaborators where the cached addrgen mode differs from the request,
the MTU is comfortably above 1280, but sysfs reports ipv6 disabled. -/
def ctxC4b : Ctx :=
  { ctx0 with
      cache := { cache0 with
                   get_link_ipv6_addrgen_mode := fun _ => some false,
                   get_link_mtu := fun _ => 2000 },
      sysfs := { sysfs0 with
                   get_ipv6_conf_disable_ipv6 := fun _ => true,
                   link_get_mtu := fun _ => 2000 } }

/-- Collaborators where the cached addrgen mode is some true. -/
def ctxC10 : Ctx :=
  { ctx0 with
      cache := { cache0 with get_link_ipv6_addrgen_mode := fun _ => some true } }

/-! ## General lemmas about the batching primitive -/

theorem execute_or_batch_pass (pfx cmd : String) (st : St)
    (h : st.batch_mode = false) :
    execute_or_batch pfx cmd st = (st, [Effect.execCmd (pfx ++ " " ++ cmd)]) := by
  simp [execute_or_batch, h]

theorem execute_or_batch_open (pfx cmd : String) (st : St) (b : List String)
    (h1 : st.batch_mode = true) (h2 : st.batch = some b) :
    execute_or_batch pfx cmd st = (⟨true, some (b ++ [cmd])⟩, []) := by
  cases st
  simp_all [execute_or_batch]

theorem execute_or_batch_list_pass (pfx : String) (cmds : List String) (st : St)
    (h : st.batch_mode = false) :
    execute_or_batch_list pfx cmds st =
      (st, cmds.map (fun cmd => Effect.execCmd (pfx ++ " " ++ cmd))) := by
  induction cmds generalizing st with
  | nil => simp [execute_or_batch_list]
  | cons cmd rest ih =>
      simp [execute_or_batch_list, execute_or_batch_pass pfx cmd st h, ih st h]

theorem execute_or_batch_list_open (pfx : String) (cmds : List String) (st : St)
    (b : List String) (h1 : st.batch_mode = true) (h2 : st.batch = some b) :
    execute_or_batch_list pfx cmds st = (⟨true, some (b ++ cmds)⟩, []) := by
  induction cmds generalizing st b with
  | nil => cases st; simp_all [execute_or_batch_list]
  | cons cmd rest ih =>
      have h3 := execute_or_batch_open pfx cmd st b h1 h2
      simp [execute_or_batch_list, h3, ih ⟨true, some (b ++ [cmd])⟩ (b ++ [cmd]) rfl rfl]

theorem execute_or_batch_list_append (pfx : String) (a b : List String) (st : St) :
    execute_or_batch_list pfx (a ++ b) st =
      ((execute_or_batch_list pfx b (execute_or_batch_list pfx a st).1).1,
       (execute_or_batch_list pfx a st).2
         ++ (execute_or_batch_list pfx b (execute_or_batch_list pfx a st).1).2) := by
  induction a generalizing st with
  | nil => simp [execute_or_batch_list]
  | cons cmd rest ih => simp [execute_or_batch_list, ih]

/-! ## Claim C1 -/

/-- C1 counterexample.  The claim states that when the pending fragment
list is empty the commit leaves the transaction closed; in the source,
batch_commit returns early on an empty buffer WITHOUT clearing
self.__batch_mode, so an open empty transaction stays open (batch_mode
still true, buffer still the empty list). -/
theorem batch_commit_open_empty_cex :
    batch_commit ctx0 (fun _ _ => Except.ok ()) ⟨true, some []⟩ =
      (Except.ok (), ⟨true, some []⟩, []) ∧
    (batch_commit ctx0 (fun _ _ => Except.ok ()) ⟨true, some []⟩).2.1.batch_mode = true := by
  constructor
  · rfl
  · rfl

/-- C1 amended.  If no transaction is open or the pending fragment list
is falsy, both commits perform no executor invocation and leave the state
exactly as it was (so an open empty transaction remains open); otherwise
each invokes the executor exactly once on its tool with -force -batch -
and the newline-joined fragments as standard input, and unconditionally
closes the transaction (batch mode off, buffer cleared), the executor
outcome propagating to the caller after that cleanup. -/
theorem batch_commit_amended_spec (c : Ctx)
    (exec : String → String → Except String Unit) (st : St) :
    ((¬ st.batch_mode ∨ batchFalsy st.batch) →
       batch_commit c exec st = (Except.ok (), st, []) ∧
       bridge_batch_commit c exec st = (Except.ok (), st, [])) ∧
    (∀ frags, st.batch_mode = true → st.batch = some frags → frags ≠ [] →
       batch_commit c exec st =
         (exec (c.ip_cmd ++ " -force -batch -") (String.intercalate "\n" frags),
          ⟨false, none⟩,
          [Effect.execBatch (c.ip_cmd ++ " -force -batch -")
            (String.intercalate "\n" frags)]) ∧
       bridge_batch_commit c exec st =
         (exec (c.bridge_cmd ++ " -force -batch -") (String.intercalate "\n" frags),
          ⟨false, none⟩,
          [Effect.execBatch (c.bridge_cmd ++ " -force -batch -")
            (String.intercalate "\n" frags)])) := by
  constructor
  · intro h
    constructor
    · unfold batch_commit; rw [if_pos h]
    · unfold bridge_batch_commit; rw [if_pos h]
  · intro frags h1 h2 h3
    have hcond : ¬(¬ st.batch_mode ∨ batchFalsy st.batch) := by
      simp [h1, h2, batchFalsy, h3]
    constructor
    · unfold batch_commit; rw [if_neg hcond]; simp [h2]
    · unfold bridge_batch_commit; rw [if_neg hcond]; simp [h2]

/-- C1 witness: the amended claim applied to a passthrough state and to
an open transaction holding one fragment. -/
theorem batch_commit_amended_spec_witness :
    batch_commit ctx0 (fun _ _ => Except.ok ()) ⟨false, none⟩ =
      (Except.ok (), ⟨false, none⟩, []) ∧
    batch_commit ctx0 (fun _ _ => Except.ok ()) ⟨true, some ["a", "b"]⟩ =
      (Except.ok (), ⟨false, none⟩,
       [Effect.execBatch "ip -force -batch -" "a\nb"]) := by
  constructor
  · exact ((batch_commit_amended_spec ctx0 (fun _ _ => Except.ok ())
      ⟨false, none⟩).1 (by simp)).1
  · have h := ((batch_commit_amended_spec ctx0 (fun _ _ => Except.ok ())
      ⟨true, some ["a", "b"]⟩).2 ["a", "b"] rfl rfl (by simp)).1
    simpa using h

/-! ## Claim C3 -/

/-- C3: link_up emits nothing when the cache reports the link up, and
exactly the single up fragment otherwise; link_down emits nothing when
the cache reports the link down, and exactly the single down fragment
otherwise. -/
theorem link_up_down_idempotent_spec (c : Ctx) (ifname : String) (st : St) :
    (c.cache.link_is_up ifname = true → link_up c ifname st = (st, [])) ∧
    (c.cache.link_is_up ifname = false →
       link_up c ifname st =
         execute_or_batch_list c.ip_cmd ["link set dev " ++ ifname ++ " up"] st) ∧
    (c.cache.link_is_up ifname = false → link_down c ifname st = (st, [])) ∧
    (c.cache.link_is_up ifname = true →
       link_down c ifname st =
         execute_or_batch_list c.ip_cmd ["link set dev " ++ ifname ++ " down"] st) := by
  refine ⟨fun h => ?_, fun h => ?_, fun h => ?_, fun h => ?_⟩ <;>
    simp [link_up, link_down, link_up_force, link_down_force,
      execute_or_batch_list, h]

/-- C3 witness: with the concrete cache reporting the link down, link_up
emits exactly one up fragment and link_down emits nothing. -/
theorem link_up_down_idempotent_spec_witness :
    link_up ctx0 "swp1" ⟨false, none⟩ =
      (⟨false, none⟩, [Effect.execCmd "ip link set dev swp1 up"]) ∧
    link_down ctx0 "swp1" ⟨false, none⟩ = (⟨false, none⟩, []) := by
  constructor
  · have h := (link_up_down_idempotent_spec ctx0 "swp1" ⟨false, none⟩).2.1 rfl
    simpa [execute_or_batch_list, execute_or_batch] using h
  · exact (link_up_down_idempotent_spec ctx0 "swp1" ⟨false, none⟩).2.2.1 rfl

/-! ## Claim C5 -/

/-- C5: link_create_vxlan raises when svcnodeip is supplied together with
a non-empty remoteips list; the error value carries no state change and
no effects, so nothing is emitted before the failure. -/
theorem link_create_vxlan_mutex_spec (c : Ctx) (name : String) (vxlanid : Nat)
    (localtunnelip : Option String) (svcnodeip : Option SvcIP)
    (remoteips : Option (List String)) (learning : String)
    (ageing ttl physdev : Option String) (st : St)
    (h1 : svcnodeip.isSome = true) (h2 : remoteipsTruthy remoteips = true) :
    link_create_vxlan c name vxlanid localtunnelip svcnodeip remoteips
        learning ageing ttl physdev st =
      Except.error "svcnodeip and remoteip are mutually exclusive" := by
  simp [link_create_vxlan, h1, h2]

/-- C5 witness: concrete multicast service node plus one remote IP. -/
theorem link_create_vxlan_mutex_spec_witness :
    link_create_vxlan ctx0 "vx0" 42 none (some ⟨"239.1.1.1", true⟩)
        (some ["10.0.0.5"]) "on" none none none ⟨false, none⟩ =
      Except.error "svcnodeip and remoteip are mutually exclusive" :=
  link_create_vxlan_mutex_spec ctx0 "vx0" 42 none (some ⟨"239.1.1.1", true⟩)
    (some ["10.0.0.5"]) "on" none none none ⟨false, none⟩ rfl rfl

/-! ## Claim C10 -/

/-- C10: whenever the cached addrgen mode equals the requested mode,
link_set_ipv6_addrgen returns true at once with the state untouched and
an empty effect trace: no sysfs read of either attribute, no address
cache flush, no log and no command executed or batched, for every
link_created flag, batching state and collaborator behaviour. -/
theorem link_set_ipv6_addrgen_noop_spec (c : Ctx) (ifname : String)
    (addrgen link_created : Bool) (st : St)
    (h : c.cache.get_link_ipv6_addrgen_mode ifname = some addrgen) :
    link_set_ipv6_addrgen c ifname addrgen link_created st = (true, st, []) := by
  simp [link_set_ipv6_addrgen, h]

/-- C10 witness: cached mode some true, requested true, inside an open
batch transaction, with a just-created flag set; nothing happens. -/
theorem link_set_ipv6_addrgen_noop_spec_witness :
    link_set_ipv6_addrgen ctxC10 "eth0" true true ⟨true, some ["x"]⟩ =
      (true, ⟨true, some ["x"]⟩, []) :=
  link_set_ipv6_addrgen_noop_spec ctxC10 "eth0" true true ⟨true, some ["x"]⟩ rfl

/-! ## Claim C2 -/

/-- C2 counterexample.  The claim states that on a MAC mismatch the link
is forced down, the address fragment is emitted, and the link is forced
back up regardless of its prior state.  The source instead calls the
cache-gated link_down and link_up: with the link cached up and the
cached raw address (1) differing from the requested value (2), the
emission is down followed by the address fragment with NO up fragment
(the cache, unchanged during the call, still reports the link up, so the
gated link_up skips). -/
theorem link_set_address_cex :
    ctxC2.mac_str_to_int "00:00:5e:00:53:01" ≠
      ctxC2.cache.get_link_address_raw "eth0" ∧
    ctxC2.cache.link_is_up "eth0" = true ∧
    link_set_address ctxC2 "eth0" "00:00:5e:00:53:01" ⟨false, none⟩ =
      (⟨false, none⟩,
       [Effect.execCmd "ip link set dev eth0 down",
        Effect.execCmd "ip link set dev eth0 address 00:00:5e:00:53:01"]) := by
  refine ⟨by decide, rfl, ?_⟩
  rfl

/-- C2 amended.  On a cached-MAC match nothing is emitted.  On a
mismatch, the source emits the cache-gated down, the address fragment,
then the cache-gated up: with the cache constant during the call this is
down followed by the address fragment when the link is cached up, and
the address fragment followed by up when it is cached down. -/
theorem link_set_address_amended_spec (c : Ctx) (ifname address : String)
    (st : St) :
    (c.mac_str_to_int address = c.cache.get_link_address_raw ifname →
       link_set_address c ifname address st = (st, [])) ∧
    (c.mac_str_to_int address ≠ c.cache.get_link_address_raw ifname →
       link_set_address c ifname address st =
         execute_or_batch_list c.ip_cmd
           (if c.cache.link_is_up ifname then
              ["link set dev " ++ ifname ++ " down",
               "link set dev " ++ ifname ++ " address " ++ address]
            else
              ["link set dev " ++ ifname ++ " address " ++ address,
               "link set dev " ++ ifname ++ " up"]) st) := by
  constructor
  · intro h
    simp [link_set_address, h]
  · intro h
    by_cases hup : c.cache.link_is_up ifname
    · simp [link_set_address, h, link_down, link_up, link_down_force,
        link_up_force, hup, execute_or_batch_list]
    · simp [link_set_address, h, link_down, link_up, link_down_force,
        link_up_force, hup, execute_or_batch_list]

/-- C2 witness: the amended claim applied to the cached-up mismatch
scenario, and to a matching MAC (nothing emitted). -/
theorem link_set_address_amended_spec_witness :
    link_set_address ctxC2 "eth0" "00:00:5e:00:53:02" ⟨false, none⟩ =
      (⟨false, none⟩,
       [Effect.execCmd "ip link set dev eth0 down",
        Effect.execCmd "ip link set dev eth0 address 00:00:5e:00:53:02"]) ∧
    link_set_address ctx0 "eth0" "00:00:00:00:00:00" ⟨false, none⟩ =
      (⟨false, none⟩, []) := by
  constructor
  · have h := (link_set_address_amended_spec ctxC2 "eth0" "00:00:5e:00:53:02"
      ⟨false, none⟩).2 (by decide)
    rw [h]
    rfl
  · exact (link_set_address_amended_spec ctx0 "eth0" "00:00:00:00:00:00"
      ⟨false, none⟩).1 rfl

/-! ## Claim C4 -/

/-- C4 counterexample.  The claim that link_set_ipv6_addrgen returns
false for every MTU in [0,1279] fails when the cached mode already
equals the request: with every MTU 0, the call returns true (trivial
success).  The claim that it returns true and emits a fragment whenever
the MTU is at least 1280 and the cached mode differs fails when sysfs
reports ipv6 disabled: with MTU 2000 and a differing cached mode the
call returns false, emitting only the sysfs read and an info log. -/
theorem link_set_ipv6_addrgen_cex :
    ctxC4a.cache.get_link_mtu "eth0" < 1280 ∧
    ctxC4a.sysfs.link_get_mtu "eth0" < 1280 ∧
    link_set_ipv6_addrgen ctxC4a "eth0" true false ⟨false, none⟩ =
      (true, ⟨false, none⟩, []) ∧
    1280 ≤ ctxC4b.cache.get_link_mtu "eth0" ∧
    ctxC4b.cache.get_link_ipv6_addrgen_mode "eth0" ≠ some true ∧
    link_set_ipv6_addrgen ctxC4b "eth0" true false ⟨false, none⟩ =
      (false, ⟨false, none⟩,
       [Effect.sysfsGetDisableIPv6 "eth0",
        Effect.logInfo (addrgenDisabledMsg "eth0")]) := by
  refine ⟨by decide, by decide, rfl, by decide, by decide, rfl⟩

/-- C4 amended.  Under the two hypotheses the claim leaves implicit --
the cached mode differs from the request and sysfs does not report ipv6
disabled -- the source behaves as claimed: for an effective MTU (sysfs
when just created, cache otherwise) below 1280 it returns false having
read sysfs and logged, with no command, no flush and no state change;
for MTU at least 1280 it returns true, flushes the address cache exactly
when the device was not just created, and emits the addrgenmode fragment
wrapped in a forced down and forced up exactly when the cache reports
the link up. -/
theorem link_set_ipv6_addrgen_amended_spec (c : Ctx) (ifname : String)
    (addrgen link_created : Bool) (st : St)
    (hmode : c.cache.get_link_ipv6_addrgen_mode ifname ≠ some addrgen)
    (hdis : c.sysfs.get_ipv6_conf_disable_ipv6 ifname = false) :
    ((if link_created then c.sysfs.link_get_mtu ifname
      else c.cache.get_link_mtu ifname) < 1280 →
       link_set_ipv6_addrgen c ifname addrgen link_created st =
         (false, st,
          Effect.sysfsGetDisableIPv6 ifname ::
            ((if link_created then [Effect.sysfsGetMtu ifname] else [])
              ++ [Effect.logInfo (addrgenMtuMsg ifname
                    (if link_created then c.sysfs.link_get_mtu ifname
                     else c.cache.get_link_mtu ifname) addrgen)]))) ∧
    (1280 ≤ (if link_created then c.sysfs.link_get_mtu ifname
             else c.cache.get_link_mtu ifname) →
       link_set_ipv6_addrgen c ifname addrgen link_created st =
         (true,
          (execute_or_batch_list c.ip_cmd
            ((if c.cache.link_is_up ifname then
                ["link set dev " ++ ifname ++ " down"] else [])
              ++ ("link set dev " ++ ifname ++ " addrgenmode "
                    ++ addrgenModeStr addrgen)
                :: (if c.cache.link_is_up ifname then
                      ["link set dev " ++ ifname ++ " up"] else [])) st).1,
          Effect.sysfsGetDisableIPv6 ifname ::
            ((if link_created then [Effect.sysfsGetMtu ifname] else [])
              ++ (if link_created then [] else [Effect.cacheAddressFlush ifname])
              ++ (execute_or_batch_list c.ip_cmd
                  ((if c.cache.link_is_up ifname then
                      ["link set dev " ++ ifname ++ " down"] else [])
                    ++ ("link set dev " ++ ifname ++ " addrgenmode "
                          ++ addrgenModeStr addrgen)
                      :: (if c.cache.link_is_up ifname then
                            ["link set dev " ++ ifname ++ " up"] else [])) st).2))) := by
  constructor
  · intro hmtu
    unfold link_set_ipv6_addrgen
    rw [if_neg hmode, hdis]
    cases link_created <;> simp_all
  · intro hmtu
    unfold link_set_ipv6_addrgen
    rw [if_neg hmode, hdis]
    have hge : ¬((if link_created then c.sysfs.link_get_mtu ifname
        else c.cache.get_link_mtu ifname) < 1280) := by omega
    by_cases hup : c.cache.link_is_up ifname
    · cases link_created <;>
        simp_all [execute_or_batch_list, link_down_force, link_up_force,
          List.append_assoc]
    · cases link_created <;>
        simp_all [execute_or_batch_list, link_down_force, link_up_force,
          List.append_assoc]

/-- C4 witness: concrete collaborators with an unknown cached mode, ipv6
enabled, cached MTU 1500 and the link cached down; the amended second
branch applies and emits the single addrgenmode fragment after a cache
flush. -/
theorem link_set_ipv6_addrgen_amended_spec_witness :
    link_set_ipv6_addrgen ctx0 "eth0" true false ⟨false, none⟩ =
      (true, ⟨false, none⟩,
       [Effect.sysfsGetDisableIPv6 "eth0",
        Effect.cacheAddressFlush "eth0",
        Effect.execCmd "ip link set dev eth0 addrgenmode none"]) := by
  have h := (link_set_ipv6_addrgen_amended_spec ctx0 "eth0" true false
      ⟨false, none⟩ (by decide) rfl).2 (by decide)
  rw [h]
  rfl

/-! ## Claim C6 -/

/-- Collaborators whose cache reports every link as existing. -/
def ctxC6 : Ctx :=
  { ctx0 with cache := { cache0 with link_exists := fun _ => true } }

/-- C6: when the cache reports the link existing, link_create_vxlan
emits one update fragment based on link set with dstport 4789 and no
VNI; otherwise one creation fragment based on link add including the
VNI; in both cases the optional clauses follow in the fixed order
group-or-remote (group for a multicast service node, remote for a
unicast one), ageing, nolearning exactly when learning is off, ttl,
physical device, local tunnel IP, space-joined into a single fragment. -/
theorem link_create_vxlan_fragment_spec (c : Ctx) (name : String)
    (vxlanid : Nat) (localtunnelip : Option String) (svcnodeip : Option SvcIP)
    (remoteips : Option (List String)) (learning : String)
    (ageing ttl physdev : Option String) (st : St)
    (h : ¬(svcnodeip.isSome = true ∧ remoteipsTruthy remoteips = true)) :
    (c.cache.link_exists name = true →
       link_create_vxlan c name vxlanid localtunnelip svcnodeip remoteips
           learning ageing ttl physdev st =
         Except.ok (execute_or_batch c.ip_cmd (String.intercalate " "
           (("link set dev " ++ name ++ " type vxlan dstport " ++ "4789")
             :: ((match svcnodeip with
                  | some s => [if s.is_multicast then "group " ++ s.addr
                               else "remote " ++ s.addr]
                  | none => [])
               ++ (if strTruthy ageing then ["ageing " ++ ageing.getD ""] else [])
               ++ (if learning = "off" then ["nolearning"] else [])
               ++ (match ttl with | some t => ["ttl " ++ t] | none => [])
               ++ (if strTruthy physdev then ["dev " ++ physdev.getD ""] else [])
               ++ (if strTruthy localtunnelip then
                     ["local " ++ localtunnelip.getD ""] else [])))) st)) ∧
    (c.cache.link_exists name = false →
       link_create_vxlan c name vxlanid localtunnelip svcnodeip remoteips
           learning ageing ttl physdev st =
         Except.ok (execute_or_batch c.ip_cmd (String.intercalate " "
           (("link add dev " ++ name ++ " type vxlan id " ++ toString vxlanid
               ++ " dstport " ++ "4789")
             :: ((match svcnodeip with
                  | some s => [if s.is_multicast then "group " ++ s.addr
                               else "remote " ++ s.addr]
                  | none => [])
               ++ (if strTruthy ageing then ["ageing " ++ ageing.getD ""] else [])
               ++ (if learning = "off" then ["nolearning"] else [])
               ++ (match ttl with | some t => ["ttl " ++ t] | none => [])
               ++ (if strTruthy physdev then ["dev " ++ physdev.getD ""] else [])
               ++ (if strTruthy localtunnelip then
                     ["local " ++ localtunnelip.getD ""] else [])))) st)) := by
  constructor
  · intro hex
    cases svcnodeip with
    | none => unfold link_create_vxlan; rw [if_neg h, hex]; rfl
    | some s => unfold link_create_vxlan; rw [if_neg h, hex]; rfl
  · intro hex
    cases svcnodeip with
    | none => unfold link_create_vxlan; rw [if_neg h, hex]; rfl
    | some s => unfold link_create_vxlan; rw [if_neg h, hex]; rfl

/-- C6 witness: a creation fragment with every optional clause present
(multicast service node, ageing 300, learning off, ttl 64, physical
device, local IP), and an update fragment for an existing link with no
options, both fully evaluated. -/
theorem link_create_vxlan_fragment_spec_witness :
    link_create_vxlan ctx0 "vx0" 42 (some "1.1.1.1") (some ⟨"239.1.1.1", true⟩)
        none "off" (some "300") (some "64") (some "swp1") ⟨false, none⟩ =
      Except.ok (⟨false, none⟩,
        [Effect.execCmd ("ip link add dev vx0 type vxlan id 42 dstport 4789 "
          ++ "group 239.1.1.1 ageing 300 nolearning ttl 64 dev swp1 local 1.1.1.1")]) ∧
    link_create_vxlan ctxC6 "vx0" 42 none none none "on" none none none
        ⟨false, none⟩ =
      Except.ok (⟨false, none⟩,
        [Effect.execCmd "ip link set dev vx0 type vxlan dstport 4789"]) := by
  constructor
  · have h := (link_create_vxlan_fragment_spec ctx0 "vx0" 42 (some "1.1.1.1")
      (some ⟨"239.1.1.1", true⟩) none "off" (some "300") (some "64")
      (some "swp1") ⟨false, none⟩ (by decide)).2 rfl
    rw [h]
    rfl
  · have h := (link_create_vxlan_fragment_spec ctxC6 "vx0" 42 none none none
      "on" none none none ⟨false, none⟩ (by decide)).1 rfl
    rw [h]
    rfl

/-! ## Claim C7 -/

theorem fix_ipv6_loop1_eq (c : Ctx) (vt : Option Nat) (dev : String)
    (ips : List String) (st : St) :
    fix_ipv6_loop1 c vt dev ips st =
      ((execute_or_batch_list c.ip_cmd
          ((ipv6Prefixes c ips).map (fun p => routeDelFrag p vt dev)) st).1,
       (execute_or_batch_list c.ip_cmd
          ((ipv6Prefixes c ips).map (fun p => routeDelFrag p vt dev)) st).2,
       (ipv6Prefixes c ips).map (fun p => (p, vt))) := by
  induction ips generalizing st with
  | nil => simp [fix_ipv6_loop1, ipv6Prefixes, execute_or_batch_list]
  | cons ip rest ih =>
      by_cases h6 : (c.ipnetwork ip).version = 6
      · simp [fix_ipv6_loop1, ipv6Prefixes, h6, execute_or_batch_list, ih]
      · simp [fix_ipv6_loop1, ipv6Prefixes, h6, ih]

theorem fix_ipv6_loop2_eq (c : Ctx) (dev : String) (vt : Option Nat)
    (pfxs : List String) (st : St) :
    fix_ipv6_loop2 c dev (pfxs.map (fun p => (p, vt))) st =
      execute_or_batch_list c.ip_cmd
        (pfxs.map (fun p => routeAddFrag p vt dev)) st := by
  induction pfxs generalizing st with
  | nil => simp [fix_ipv6_loop2, execute_or_batch_list]
  | cons p rest ih => simp [fix_ipv6_loop2, execute_or_batch_list, ih]

/-- C7: fix_ipv6_route_metric queues exactly the route del fragments of
the IPv6 members of the address list (IPv4 members contribute nothing),
all before any route add fragment, then re-adds every deleted prefix on
the same device and resolved table at metric 9999; and on the example
list the emission is exactly one delete and one re-add for the IPv6
address. -/
theorem fix_ipv6_route_metric_spec :
    (∀ (c : Ctx) (ifaceobj : IfaceObj) (dev : String) (ips : List String)
       (st : St),
       fix_ipv6_route_metric c ifaceobj dev ips st =
         execute_or_batch_list c.ip_cmd
           ((ipv6Prefixes c ips).map (fun p => routeDelFrag p
               (if ifaceobj.vrf_slave then
                  match ifaceobj.upperifaces with
                  | none => none
                  | some uppers => findVrf c uppers
                else none) dev)
             ++ (ipv6Prefixes c ips).map (fun p => routeAddFrag p
               (if ifaceobj.vrf_slave then
                  match ifaceobj.upperifaces with
                  | none => none
                  | some uppers => findVrf c uppers
                else none) dev)) st) ∧
    fix_ipv6_route_metric ctx0 ⟨false, none⟩ "macvlan0"
        ["2001:db8::1/64", "10.0.0.1/24"] ⟨false, none⟩ =
      (⟨false, none⟩,
       [Effect.execCmd "ip route del 2001:db8::/64 dev macvlan0",
        Effect.execCmd
          "ip route add 2001:db8::/64 dev macvlan0 proto kernel metric 9999"]) := by
  constructor
  · intro c ifaceobj dev ips st
    simp only [fix_ipv6_route_metric, fix_ipv6_loop1_eq, fix_ipv6_loop2_eq,
      execute_or_batch_list_append]
  · rfl

/-! ## Claim C8 -/

/-- C8 counterexample.  The claim states the set operation validates the
VLAN to the range 1 to 4095 and emits nothing on any invalid input; the
source only rejects 0 and values above 4095, so the parseable VLAN -5 —
outside the claimed range — slips through and a command IS emitted. -/
theorem bridge_mcqv4src_cex :
    pyInt "-5" = some (-5) ∧
    ((-5 : Int) < 1) ∧
    bridge_set_mcqv4src ctx0 "br0" "-5" "1.2.3.4" =
      [Effect.execCmd "brctl setmcqv4src br0 -5 1.2.3.4"] := by
  refine ⟨by decide, by decide, rfl⟩

/-- C8 amended.  Both operations parse the VLAN with Python int, log info
and emit nothing when parsing fails; delete then emits exactly one brctl
command for any parsed integer; set warns and emits nothing exactly when
the parsed VLAN is 0 or above 4095 (negative parsed values pass), warns
and emits nothing when the querier address is not four dot-separated
all-digit octets each at most 255, and otherwise emits exactly one brctl
command carrying the VLAN and the address.  No path raises. -/
theorem bridge_mcqv4src_amended_spec (c : Ctx) (bridge vlan mcquerier : String) :
    (pyInt vlan = none →
       bridge_set_mcqv4src c bridge vlan mcquerier =
         [Effect.logInfo (bridge ++ ": set mcqv4src vlan: invalid parameter " ++ vlan)] ∧
       bridge_del_mcqv4src c bridge vlan =
         [Effect.logInfo (bridge ++ ": del mcqv4src vlan: invalid parameter " ++ vlan)]) ∧
    (∀ v : Int, pyInt vlan = some v →
       bridge_del_mcqv4src c bridge vlan =
         [Effect.execCmd (c.brctl_cmd ++ " delmcqv4src " ++ bridge ++ " " ++ toString v)] ∧
       ((v = 0 ∨ v > 4095) →
          bridge_set_mcqv4src c bridge vlan mcquerier =
            [Effect.logWarn ("mcqv4src vlan " ++ toString v ++ " invalid range")]) ∧
       (¬(v = 0 ∨ v > 4095) →
          (¬((splitDots mcquerier.data).length = 4 ∧
             (splitDots mcquerier.data).all
               (fun k => pyIsDigitChars k ∧ digitsVal k ≤ 255) = true) →
             ∃ m, bridge_set_mcqv4src c bridge vlan mcquerier = [Effect.logWarn m]) ∧
          (((splitDots mcquerier.data).length = 4 ∧
             (splitDots mcquerier.data).all
               (fun k => pyIsDigitChars k ∧ digitsVal k ≤ 255) = true) →
             bridge_set_mcqv4src c bridge vlan mcquerier =
               [Effect.execCmd (c.brctl_cmd ++ " setmcqv4src " ++ bridge ++ " "
                 ++ toString v ++ " " ++ mcquerier)]))) := by
  constructor
  · intro h
    constructor
    · unfold bridge_set_mcqv4src; rw [h]
    · unfold bridge_del_mcqv4src; rw [h]
  · intro v hv
    have hdel : bridge_del_mcqv4src c bridge vlan =
        [Effect.execCmd (c.brctl_cmd ++ " delmcqv4src " ++ bridge ++ " "
          ++ toString v)] := by
      unfold bridge_del_mcqv4src; rw [hv]
    refine ⟨hdel, fun hr => ?_, fun hr => ⟨?_, ?_⟩⟩
    · unfold bridge_set_mcqv4src
      rw [hv]
      exact if_pos hr
    · intro hbad
      unfold bridge_set_mcqv4src
      simp only [hv]
      by_cases hlen : (splitDots mcquerier.data).length = 4
      · have hall : ¬ ((splitDots mcquerier.data).all
            (fun k => pyIsDigitChars k ∧ digitsVal k ≤ 255) = true) :=
          fun hc => hbad ⟨hlen, hc⟩
        exact ⟨_, by rw [if_neg hr, if_neg (not_not_intro hlen), if_pos hall]⟩
      · exact ⟨_, by rw [if_neg hr, if_pos hlen]⟩
    · intro hgood
      unfold bridge_set_mcqv4src
      simp only [hv]
      rw [if_neg hr, if_neg (not_not_intro hgood.1),
        if_neg (not_not_intro hgood.2)]

/-- C8 witness: the two example calls of the claim.  VLAN 10 with querier
239.1.1.1 emits exactly one brctl command; VLAN 5000 is out of range,
emits nothing and warns. -/
theorem bridge_mcqv4src_amended_spec_witness :
    bridge_set_mcqv4src ctx0 "br0" "10" "239.1.1.1" =
      [Effect.execCmd "brctl setmcqv4src br0 10 239.1.1.1"] ∧
    bridge_set_mcqv4src ctx0 "br0" "5000" "1.2.3.4" =
      [Effect.logWarn "mcqv4src vlan 5000 invalid range"] := by
  constructor
  · have h := (((bridge_mcqv4src_amended_spec ctx0 "br0" "10" "239.1.1.1").2
      10 (by decide)).2.2 (by decide)).2 ⟨by decide, by decide⟩
    rw [h]
    rfl
  · have h := ((bridge_mcqv4src_amended_spec ctx0 "br0" "5000" "1.2.3.4").2
      5000 (by decide)).2.1 (by decide)
    rw [h]
    rfl

/-! ## Claim C9 -/

/-- C9: get_vxlan_peers never returns the configured service-node IP;
every returned IP is the regex capture of some all-zero-MAC line of the
FDB output; the example output line containing
00:00:00:00:00:00 dev vx0 dst 10.0.0.2 yields no peer when the service
node is 10.0.0.2 and exactly the peer 10.0.0.2 when it is 10.0.0.9; the
CalledProcessError handler returns the empty list, silently for
returncode 1 and with an error log for any other returncode.  All model
functions are total, so no path raises. -/
theorem get_vxlan_peers_spec :
    (∀ (fdb_lines : List String) (svcnodeip : String),
       svcnodeip ∉ (get_vxlan_peers fdb_lines svcnodeip).1) ∧
    (∀ (fdb_lines : List String) (svcnodeip ip : String),
       ip ∈ (get_vxlan_peers fdb_lines svcnodeip).1 →
         ip ≠ svcnodeip ∧ ∃ l, l ∈ fdb_lines ∧ containsSub l zeroMac = true ∧
           vxlanPeerSearch l = some ip) ∧
    get_vxlan_peers ["00:00:00:00:00:00 dev vx0 dst 10.0.0.2 self permanent"]
        "10.0.0.2" = ([], []) ∧
    get_vxlan_peers ["00:00:00:00:00:00 dev vx0 dst 10.0.0.2 self permanent"]
        "10.0.0.9" = (["10.0.0.2"], []) ∧
    get_vxlan_peers_on_called_process_error 1 = ([], []) ∧
    (∀ rc : Int, rc ≠ 1 →
       get_vxlan_peers_on_called_process_error rc =
         ([], [Effect.logError ("CalledProcessError returncode " ++ toString rc)])) := by
  refine ⟨?_, ?_, rfl, rfl, rfl, ?_⟩
  · intro fdb_lines svcnodeip h
    unfold get_vxlan_peers at h
    by_cases he : (fdb_lines.filter (fun l => containsSub l zeroMac)).isEmpty
    · simp [he] at h
    · simp [he, List.mem_filter] at h
  · intro fdb_lines svcnodeip ip h
    unfold get_vxlan_peers at h
    by_cases he : (fdb_lines.filter (fun l => containsSub l zeroMac)).isEmpty
    · simp [he] at h
    · simp only [he, if_false, Bool.false_eq_true] at h
      rw [List.mem_filter] at h
      obtain ⟨hmem, hne⟩ := h
      refine ⟨by simpa using hne, ?_⟩
      rw [List.mem_filterMap] at hmem
      obtain ⟨l, hl, hsearch⟩ := hmem
      rcases List.mem_append.mp hl with hl1 | hl2
      · rw [List.mem_filter] at hl1
        exact ⟨l, hl1.1, hl1.2, hsearch⟩
      · exfalso
        have : l = "" := by simpa using hl2
        rw [this] at hsearch
        exact Option.noConfusion hsearch
  · intro rc h
    simp [get_vxlan_peers_on_called_process_error, h]

/-- C9 witness: the universal parts applied to the example line. -/
theorem get_vxlan_peers_spec_witness :
    "10.0.0.2" ∉ (get_vxlan_peers
      ["00:00:00:00:00:00 dev vx0 dst 10.0.0.2 self permanent"] "10.0.0.2").1 ∧
    get_vxlan_peers_on_called_process_error 2 =
      ([], [Effect.logError "CalledProcessError returncode 2"]) := by
  constructor
  · exact get_vxlan_peers_spec.1
      ["00:00:00:00:00:00 dev vx0 dst 10.0.0.2 self permanent"] "10.0.0.2"
  · have h := get_vxlan_peers_spec.2.2.2.2.2 2 (by decide)
    rw [h]
    rfl

end IfUpdown2
